import Mathlib

/-!
Shallow embedding of the iPIXEL Color integration
(`custom_components/ipixel_color`): the command codec and device-info
parsing of `api.py`, the session-scoped device-info cache, the mode
handler stubs of `common.py`, and the text-rendering geometry of
`display/text_renderer.py`.  Bytes are modelled as `Nat`, Python byte
strings as `List Nat`, fallible code as `Option`/`Except`.
-/

namespace IPixel

/-! ## Device info parsing (`api.py`, `_parse_device_response`) -/

/-- The parsed device information dictionary of `api.py`:
`{width, height, device_type, mcu_version, wifi_version}`. -/
structure DeviceInfo where
  width : Nat
  height : Nat
  device_type : String
  mcu_version : String
  wifi_version : String
deriving Repr, DecidableEq

/-- Degraded-mode default returned by `get_device_info` when the query or
the parse fails (`api.py` lines 187-193). -/
def default_device_info : DeviceInfo :=
  { width := 64, height := 16, device_type := "Unknown",
    mcu_version := "Unknown", wifi_version := "Unknown" }

/-- Raw device-type byte to logical LED type (`api.py` lines 209-230,
`device_type_map`); `none` models a key absent from the Python dict. -/
def device_type_map (b : Nat) : Option Nat :=
  match b with
  | 129 => some 2
  | 128 => some 0
  | 130 => some 4
  | 131 => some 3
  | 132 => some 1
  | 133 => some 5
  | 134 => some 6
  | 135 => some 7
  | 136 => some 8
  | 137 => some 9
  | 138 => some 10
  | 139 => some 11
  | 140 => some 12
  | 141 => some 13
  | 142 => some 14
  | 143 => some 15
  | 144 => some 16
  | 145 => some 17
  | 146 => some 18
  | 147 => some 19
  | _ => none

/-- Logical LED type to `(width, height)` (`api.py` lines 233-254,
`led_size_map`); `none` models a key absent from the Python dict. -/
def led_size_map (t : Nat) : Option (Nat × Nat) :=
  match t with
  | 0 => some (64, 64)
  | 1 => some (96, 16)
  | 2 => some (32, 32)
  | 3 => some (64, 16)
  | 4 => some (32, 16)
  | 5 => some (64, 20)
  | 6 => some (128, 32)
  | 7 => some (144, 16)
  | 8 => some (192, 16)
  | 9 => some (48, 24)
  | 10 => some (64, 32)
  | 11 => some (96, 32)
  | 12 => some (128, 32)
  | 13 => some (96, 32)
  | 14 => some (160, 32)
  | 15 => some (192, 32)
  | 16 => some (256, 32)
  | 17 => some (320, 32)
  | 18 => some (384, 32)
  | 19 => some (448, 32)
  | _ => none

/-- Python `"{n:02d}"`: decimal rendering zero-padded to two digits. -/
def pad2 (n : Nat) : String :=
  if n < 10 then "0" ++ toString n else toString n

/-- Embedding of `_parse_device_response` (`api.py` lines 196-280).
A raised exception is modelled as `Except.error` carrying the message. -/
def parse_device_response (response : List Nat) : Except String DeviceInfo :=
  if response.length < 5 then
    .error ("Response too short: got " ++ toString response.length ++
      " bytes, need at least 5")
  else
    let device_type_byte := response.getD 4 0
    let led_type := (device_type_map device_type_byte).getD 0
    let wh := (led_size_map led_type).getD (64, 64)
    if 8 ≤ response.length then
      .ok { width := wh.1, height := wh.2,
            device_type := "Type " ++ toString device_type_byte,
            mcu_version :=
              toString (response.getD 4 0) ++ "." ++ pad2 (response.getD 5 0),
            wifi_version :=
              toString (response.getD 6 0) ++ "." ++ pad2 (response.getD 7 0) }
    else
      .ok { width := wh.1, height := wh.2,
            device_type := "Type " ++ toString device_type_byte,
            mcu_version := "Unknown", wifi_version := "Unknown" }

/-! ## Session state (`api.py`, `iPIXELAPI`) -/

/-- The mutable fields of `iPIXELAPI` relevant to the device-info cache:
`_connected` and `_device_info`. -/
structure SessionState where
  connected : Bool
  device_info : Option DeviceInfo
deriving Repr, DecidableEq

/-- Outcome of the transport round-trip inside `get_device_info`:
either a notification arrived with `data`, or the 5-second wait timed out
(equally: no usable response), both of which reach the `except` branch
when parsing is impossible. -/
inductive InfoQueryOutcome where
  | response (data : List Nat)
  | timeout
deriving Repr, DecidableEq

/-- Embedding of `get_device_info` (`api.py` lines 134-194): return the
cache when present; otherwise parse the response and cache it, and on any
failure (timeout or parse error) cache and return the degraded-mode
default. -/
def get_device_info (st : SessionState) (q : InfoQueryOutcome) :
    DeviceInfo × SessionState :=
  match st.device_info with
  | some di => (di, st)
  | none =>
    match q with
    | .response d =>
      match parse_device_response d with
      | .ok di => (di, { st with device_info := some di })
      | .error _ =>
        (default_device_info, { st with device_info := some default_device_info })
    | .timeout =>
      (default_device_info, { st with device_info := some default_device_info })

/-- Embedding of `disconnect` (`api.py` lines 67-77): when connected, the
`finally` block clears `_connected`; `_device_info` is not touched in
either case. -/
def disconnect (st : SessionState) : SessionState :=
  if st.connected then { st with connected := false } else st

/-! ## Command codec (`api.py`, `display_text`) -/

/-- The CRC-32 polynomial (bit-reversed), as used by `zlib.crc32`. -/
def CRC_POLY : Nat := 0xEDB88320

/-- One bit step of the reflected CRC-32: shift right, conditionally XOR
the polynomial. -/
def crc_bit (c : Nat) : Nat :=
  if c % 2 = 1 then (c >>> 1) ^^^ CRC_POLY else c >>> 1

/-- One byte step of CRC-32: XOR the byte in, then eight bit steps. -/
def crc_byte (c b : Nat) : Nat :=
  crc_bit (crc_bit (crc_bit (crc_bit (crc_bit (crc_bit (crc_bit (crc_bit (c ^^^ b))))))))

/-- The standard zlib CRC-32 of a byte string (initial value and final
XOR `0xFFFFFFFF`), modelling Python `zlib.crc32(data)`. -/
def crc32 (data : List Nat) : Nat :=
  (data.foldl crc_byte 0xFFFFFFFF) ^^^ 0xFFFFFFFF

/-- The `k` base-256 little-endian digits of `n`, the digit string that
Python `to_bytes` with length `k` in little-endian order yields when it
succeeds. -/
def le_digits : Nat → Nat → List Nat
  | 0, _ => []
  | k + 1, n => n % 256 :: le_digits k (n / 256)

/-- Python `to_bytes` with length `k` in little-endian order: `none`
models the `OverflowError`
raised when `n` does not fit in `k` bytes. -/
def to_bytes_le (k n : Nat) : Option (List Nat) :=
  if n < 256 ^ k then some (le_digits k n) else none

/-- Little-endian value of a byte string, used to state what a frame
field embeds. -/
def from_bytes_le : List Nat → Nat
  | [] => 0
  | b :: bs => b + 256 * from_bytes_le bs

/-- Embedding of the frame assembly of `display_text` (`api.py` lines
302-337): payload `00 ‖ size_u32 ‖ crc_u32 ‖ 00 ‖ 01 ‖ png_data`, frame
`total_length_u16 ‖ 02 00 ‖ payload` with `total_length = len(payload)+4`;
the screen byte is fixed to `0x01`.  `none` models an `OverflowError`
from `to_bytes`. -/
def display_text_command (png_data : List Nat) : Option (List Nat) :=
  let data_size := png_data.length
  let data_crc := crc32 png_data &&& 0xFFFFFFFF
  match to_bytes_le 4 data_size, to_bytes_le 4 data_crc with
  | some size_bytes, some crc_bytes =>
    let payload := 0x00 :: (size_bytes ++ crc_bytes ++ [0x00, 0x01] ++ png_data)
    match to_bytes_le 2 (payload.length + 4) with
    | some len_bytes => some (len_bytes ++ [0x02, 0x00] ++ payload)
    | none => none
  | _, _ => none

/-! ## Mode handler stubs (`common.py`) -/

/-- Embedding of `_update_rhythm_mode` (`common.py` lines 182-195): logs
and returns `False`; parameters mirror `(hass, device_name, api)`. -/
def update_rhythm_mode {H A : Type} (_hass : H) (_device_name : String)
    (_api : A) : Bool :=
  false

/-- Embedding of `_update_fun_mode` (`common.py` lines 198-211): logs and
returns `False`; parameters mirror `(hass, device_name, api)`. -/
def update_fun_mode {H A : Type} (_hass : H) (_device_name : String)
    (_api : A) : Bool :=
  false

/-! ## Text renderer (`display/text_renderer.py`) -/

/-- Minimum font size to try (`text_renderer.py` line 15). -/
def MIN_FONT_SIZE : Nat := 4

/-- Pixel brightness threshold for margin detection (`text_renderer.py`
line 16). -/
def MARGIN_THRESHOLD : Nat := 64

/-- Smallest `i < n` with `p i`, modelling a Python
`for i in range(n): ... break` scan. -/
def first_hit (p : Nat → Bool) : Nat → Option Nat
  | 0 => none
  | n + 1 =>
    match first_hit p n with
    | some i => some i
    | none => if p n then some n else none

/-- Largest `i < n` with `p i`, modelling a Python
`for i in range(n - 1, -1, -1): ... break` scan. -/
def last_hit (p : Nat → Bool) : Nat → Option Nat
  | 0 => none
  | n + 1 => if p n then some n else last_hit p n

/-- Row `y` has some pixel brighter than the threshold
(the inner loops of the top/bottom scans in `_calculate_content_bounds`). -/
def row_bright (px : Nat → Nat → Nat) (width y : Nat) : Bool :=
  (List.range width).any fun x => decide (MARGIN_THRESHOLD < px x y)

/-- Column `x` has some pixel brighter than the threshold within the
vertical band `[top, bottom)` (the inner loops of the left/right scans). -/
def band_bright (px : Nat → Nat → Nat) (top bottom x : Nat) : Bool :=
  (List.range' top (bottom - top)).any fun y => decide (MARGIN_THRESHOLD < px x y)

/-- Embedding of `_calculate_content_bounds` (`text_renderer.py` lines
146-207): scan top-down, bottom-up, then left-right and right-left
restricted to the discovered vertical band; `none` when no pixel exceeds
the threshold. -/
def calculate_content_bounds (px : Nat → Nat → Nat) (width height : Nat) :
    Option (Nat × Nat × Nat × Nat) :=
  match first_hit (row_bright px width) height with
  | none => none
  | some top =>
    match last_hit (row_bright px width) height with
    | none => none
    | some yb =>
      let bottom := yb + 1
      match first_hit (band_bright px top bottom) width,
            last_hit (band_bright px top bottom) width with
      | some left, some xr => some (left, top, xr + 1, bottom)
      | _, _ => none

/-- Splitting a character sequence at each newline character, Python
`str.split` with the newline separator:
the empty input yields one empty piece, and each newline starts a new
piece. -/
def split_nl : List Char → List (List Char)
  | [] => [[]]
  | c :: rest =>
    if c = '\n' then [] :: split_nl rest
    else
      match split_nl rest with
      | [] => [[c]]
      | l :: ls => (c :: l) :: ls

/-- Line splitting of `render_text_to_png` (`text_renderer.py` line 66):
a split at newlines when a newline is present, else the singleton of the
whole text; when no newline is
present the split yields `[text]`, so both branches are the plain
split. -/
def split_lines (text : String) : List String :=
  (split_nl text.data).map String.mk

/-- The fit check of `get_optimal_font` (`text_renderer.py` lines
268-285): the measured width of every line must fit `max_width` (break on the
first overflow) and the accumulated line heights must fit `max_height`.
`msr font line` models PIL `draw.textbbox((0,0), line, font)` as the
`(width, height)` differences of the returned box. -/
def measure_fits {F : Type} (msr : F → String → Nat × Nat) (font : F)
    (max_width max_height : Nat) : List String → Nat → Bool
  | [], total_height => decide (total_height ≤ max_height)
  | line :: rest, total_height =>
    let wh := msr font line
    if max_width < wh.1 then false
    else measure_fits msr font max_width max_height rest (total_height + wh.2)

/-- The descending candidate loop of `get_optimal_font`
(`text_renderer.py` line 252): `for size in range(start, MIN_FONT_SIZE, -1)`
returning the first accepted size; the loop stops before reaching
`MIN_FONT_SIZE` itself. -/
def font_search (p : Nat → Bool) : Nat → Option Nat
  | 0 => none
  | n + 1 =>
    if n + 1 ≤ MIN_FONT_SIZE then none
    else if p (n + 1) then some (n + 1) else font_search p n

/-- Embedding of `get_optimal_font` (`text_renderer.py` lines 237-299)
over an abstract font type `F`: `load size` models loading the named (or
default) font at `size`, `dflt` models the `ImageFont.load_default()`
fallback returned when no candidate fits. -/
def get_optimal_font {F : Type} (load : Nat → F) (msr : F → String → Nat × Nat)
    (dflt : F) (lines : List String) (max_width max_height : Nat) : F :=
  match font_search
      (fun size => measure_fits msr (load size) max_width max_height lines 0)
      (min max_height max_width) with
  | some size => load size
  | none => dflt

/-- Embedding of `get_fixed_font` (`text_renderer.py` lines 210-234):
`load` already models the truetype-load-with-default-fallback, so the
fixed path just loads at the requested size. -/
def get_fixed_font {F : Type} (load : Nat → F) (size : Nat) : F :=
  load size

/-- Per-line measurement record of the temp-draw loop
(`text_renderer.py` lines 79-94): `{text, width, height, y_pos}`. -/
structure LineData where
  text : String
  width : Nat
  height : Nat
  y_pos : Nat

/-- The temp-draw loop (`text_renderer.py` lines 79-94): measure each
line and stack it at the accumulated `temp_y`. -/
def line_layout {F : Type} (msr : F → String → Nat × Nat) (font : F) :
    List String → Nat → List LineData
  | [], _ => []
  | line :: rest, temp_y =>
    let wh := msr font line
    { text := line, width := wh.1, height := wh.2, y_pos := temp_y } ::
      line_layout msr font rest (temp_y + wh.2)

/-- Brightness of the scratch grayscale buffer after drawing every line
at `(0, y_pos)`; `raster font line dx dy` models the glyph brightness PIL
paints at the relative coordinate `(dx, dy)` (0 outside the glyphs), and
overlapping draws are overlaid by `max`. -/
def temp_pixels {F : Type} (raster : F → String → Int → Int → Nat) (font : F)
    (layout : List LineData) (x y : Nat) : Nat :=
  layout.foldl
    (fun acc d => max acc (raster font d.text (x : Int) ((y : Int) - (d.y_pos : Int)))) 0

/-- The per-line draw loop positions (`text_renderer.py` lines 113-129):
each line draws at `(xOf line, current_y)` and advances `current_y` by
the measured height of the line. -/
def draw_positions (xOf : LineData → Int) : List LineData → Int → List (Int × Int)
  | [], _ => []
  | d :: rest, current_y => (xOf d, current_y) :: draw_positions xOf rest (current_y + (d.height : Int))

/-- Final canvas brightness: each line is drawn at its position; with
antialiasing the graded raster value is drawn, without it the 1-bit draw
then 1→255 conversion (`text_renderer.py` lines 125-138) yields 0 or
255. -/
def final_pixels {F : Type} (raster : F → String → Int → Int → Nat) (font : F)
    (antialias : Bool) (items : List (String × Int × Int)) (x y : Nat) : Nat :=
  items.foldl
    (fun acc it =>
      let v := raster font it.1 ((x : Int) - it.2.1) ((y : Int) - it.2.2)
      max acc (if antialias then v else if v = 0 then 0 else 255)) 0

/-- Result of the renderer: canvas size, the detected content bounds,
the per-line draw positions, and the pixel buffer (PNG container
serialization is omitted). -/
structure RenderResult where
  width : Nat
  height : Nat
  content_bounds : Option (Nat × Nat × Nat × Nat)
  positions : List (Int × Int)
  pixels : Nat → Nat → Nat

/-- Embedding of `render_text_to_png` (`text_renderer.py` lines 43-143)
over an abstract font type `F`: split lines, select the font, measure and
temp-draw, detect content bounds, compute the stacked draw positions
(Python `//` on possibly negative values is `Int.fdiv`), and draw.
Measurement goes through a PIL draw object and depends on the fontmode of
the image the draw belongs to: `msr1` models `textbbox` on the mode-`'1'`
output image (fontmode `"1"`, `antialias=False`), `msrL` models `textbbox`
on an RGB/grayscale image (fontmode `"L"`).  The auto-size search (line
72) measures through the output-image draw, so through `msr1` exactly
when antialiasing is off; the temp-draw measurements (lines 82 and 118)
use the always-grayscale temp image, so `msrL`.  The `x_offset` computed
at line 104 is never read by the draw loop and is omitted. -/
def render_text_to_png {F : Type} (msr1 msrL : F → String → Nat × Nat)
    (raster : F → String → Int → Int → Nat) (load : Nat → F) (dflt : F)
    (text : String) (width height : Nat) (antialias : Bool)
    (font_size : Option Nat) : RenderResult :=
  let lines := split_lines text
  let draw_msr := if antialias then msrL else msr1
  let font_obj :=
    match font_size with
    | some s => get_fixed_font load s
    | none => get_optimal_font load draw_msr dflt lines width height
  let layout := line_layout msrL font_obj lines 0
  let content_bounds :=
    calculate_content_bounds (temp_pixels raster font_obj layout) width height
  let y_offset : Int :=
    match content_bounds with
    | some (_, t, _, b) =>
      ((height : Int) - ((b : Int) - (t : Int))).fdiv 2 - (t : Int)
    | none =>
      ((height : Int) - ((layout.map LineData.height).sum : Int)).fdiv 2
  let xOf : LineData → Int := fun d =>
    match content_bounds with
    | some _ => ((width : Int) - ((msrL font_obj d.text).1 : Int)).fdiv 2
    | none => ((width : Int) - (d.width : Int)).fdiv 2
  let positions := draw_positions xOf layout y_offset
  { width := width, height := height, content_bounds := content_bounds,
    positions := positions,
    pixels := final_pixels raster font_obj antialias
      ((layout.zip positions).map fun pr => (pr.1.text, pr.2)) }

/-- Modelled from the spec (the reading in claim C6 of §4.3 step 2, code under
test is `get_optimal_font`): a descending search whose candidates run
from the start size down to and including the 4px minimum floor. -/
def spec_font_search (p : Nat → Bool) : Nat → Option Nat
  | 0 => none
  | n + 1 =>
    if n + 1 < MIN_FONT_SIZE then none
    else if p (n + 1) then some (n + 1) else spec_font_search p n

/-- Modelled from the spec: `get_optimal_font` as claim C6 states it,
with the 4px floor itself among the candidate sizes. -/
def spec_optimal_font {F : Type} (load : Nat → F) (msr : F → String → Nat × Nat)
    (dflt : F) (lines : List String) (max_width max_height : Nat) : F :=
  match spec_font_search
      (fun size => measure_fits msr (load size) max_width max_height lines 0)
      (min max_height max_width) with
  | some size => load size
  | none => dflt

/-- A concrete measurement on which only candidate size 4 fits a 6×6
canvas: widths are 100 above the floor and 1 at or below it. -/
def narrow_measure (size : Nat) (_line : String) : Nat × Nat :=
  (if size ≤ 4 then 1 else 100, 1)

/-- A concrete mode-`"1"` metric (fontmode of a mode-`'1'` draw): every
line measures 4 pixels wider than under [modeL_measure], as mono-hinted
rendering may, so the auto-size search rejects sizes the mode-`"L"`
metric accepts. -/
def mode1_measure (size : Nat) (_line : String) : Nat × Nat :=
  (size + 4, size)

/-- A concrete mode-`"L"` metric (fontmode of an RGB or grayscale draw):
every line measures `size × size`. -/
def modeL_measure (size : Nat) (_line : String) : Nat × Nat :=
  (size, size)

/-! ## Theorems -/

/-! ### Codec helper lemmas -/

/-- `le_digits k n` always has exactly `k` digits. -/
theorem le_digits_length (k : Nat) : ∀ n, (le_digits k n).length = k := by
  induction k with
  | zero => intro n; rfl
  | succ k ih => intro n; simp [le_digits, ih]

/-- Little-endian digits round-trip: re-reading the `k` digits of an
`n < 256^k` recovers `n`. -/
theorem from_bytes_le_digits (k : Nat) :
    ∀ n, n < 256 ^ k → from_bytes_le (le_digits k n) = n := by
  induction k with
  | zero =>
    intro n h
    interval_cases n
    rfl
  | succ k ih =>
    intro n h
    have hdiv : n / 256 < 256 ^ k := by
      rw [Nat.div_lt_iff_lt_mul (by norm_num)]
      calc n < 256 ^ (k + 1) := h
        _ = 256 ^ k * 256 := by ring
    simp only [le_digits, from_bytes_le, ih (n / 256) hdiv]
    omega

/-- One CRC bit step stays below `2^32`. -/
theorem crc_bit_lt {c : Nat} (h : c < 2 ^ 32) : crc_bit c < 2 ^ 32 := by
  unfold crc_bit
  have hs : c >>> 1 < 2 ^ 32 := by
    rw [Nat.shiftRight_eq_div_pow]
    omega
  split
  · exact Nat.xor_lt_two_pow hs (by norm_num [CRC_POLY])
  · exact hs

/-- One CRC byte step stays below `2^32`. -/
theorem crc_byte_lt {c b : Nat} (hc : c < 2 ^ 32) (hb : b < 256) :
    crc_byte c b < 2 ^ 32 := by
  unfold crc_byte
  have h0 : c ^^^ b < 2 ^ 32 := Nat.xor_lt_two_pow hc (by omega)
  exact crc_bit_lt (crc_bit_lt (crc_bit_lt (crc_bit_lt (crc_bit_lt
    (crc_bit_lt (crc_bit_lt (crc_bit_lt h0)))))))

/-- The CRC-32 of a byte string is a 32-bit value. -/
theorem crc32_lt (data : List Nat) (hb : ∀ b ∈ data, b < 256) :
    crc32 data < 2 ^ 32 := by
  unfold crc32
  have : ∀ (l : List Nat) (c : Nat), c < 2 ^ 32 → (∀ b ∈ l, b < 256) →
      l.foldl crc_byte c < 2 ^ 32 := by
    intro l
    induction l with
    | nil => intro c hc _; exact hc
    | cons x xs ih =>
      intro c hc hl
      simp only [List.foldl_cons]
      exact ih _ (crc_byte_lt hc (hl x (List.mem_cons_self x xs))) fun b hbm =>
        hl b (List.mem_cons_of_mem x hbm)
  exact Nat.xor_lt_two_pow (this data 0xFFFFFFFF (by norm_num) hb) (by norm_num)

/-- Masking a 32-bit CRC with `0xFFFFFFFF` (as `display_text` does)
changes nothing. -/
theorem crc32_mask (data : List Nat) (h : crc32 data < 2 ^ 32) :
    crc32 data &&& 0xFFFFFFFF = crc32 data := by
  have := Nat.and_pow_two_sub_one_of_lt_two_pow (n := 32) h
  norm_num at this
  exact this

/-- Frame assembly of `display_text` in closed form under the natural
size bounds. -/
theorem display_text_command_eq (png : List Nat)
    (h1 : crc32 png &&& 0xFFFFFFFF = crc32 png)
    (h2 : png.length < 256 ^ 4) (h3 : crc32 png < 256 ^ 4)
    (h4 : png.length + 15 < 256 ^ 2) :
    display_text_command png =
      some (le_digits 2 (png.length + 15) ++ [0x02, 0x00] ++
        (0x00 :: (le_digits 4 png.length ++ le_digits 4 (crc32 png) ++
          [0x00, 0x01] ++ png))) := by
  unfold display_text_command to_bytes_le
  rw [h1]
  simp only [if_pos h2, if_pos h3]
  have hlen : ((0x00 : Nat) :: (le_digits 4 png.length ++ le_digits 4 (crc32 png) ++
      [0x00, 0x01] ++ png)).length + 4 = png.length + 15 := by
    simp [le_digits_length]
    omega
  simp only [hlen, if_pos h4]

/-! ### Scan helper lemmas -/

/-- If the ascending scan finds nothing, the predicate is false below `n`. -/
theorem first_hit_none (p : Nat → Bool) (n : Nat) :
    first_hit p n = none → ∀ i, i < n → p i = false := by
  induction n with
  | zero => intro _ i hi; omega
  | succ n ih =>
    rw [first_hit]
    cases h : first_hit p n with
    | some k => intro hc; simp at hc
    | none =>
      cases hpn : p n with
      | true => intro hc; simp [hpn] at hc
      | false =>
        intro _ i hi
        rcases Nat.lt_succ_iff_lt_or_eq.mp hi with h' | rfl
        · exact ih h i h'
        · exact hpn

/-- The ascending scan returns the least index satisfying the predicate. -/
theorem first_hit_spec (p : Nat → Bool) (n i : Nat) :
    first_hit p n = some i → i < n ∧ p i = true ∧ ∀ j, j < i → p j = false := by
  induction n with
  | zero => intro hc; simp [first_hit] at hc
  | succ n ih =>
    rw [first_hit]
    cases h : first_hit p n with
    | some k =>
      intro hc
      simp at hc
      subst hc
      obtain ⟨h1, h2, h3⟩ := ih h
      exact ⟨Nat.lt_succ_of_lt h1, h2, h3⟩
    | none =>
      cases hpn : p n with
      | true =>
        intro hc
        simp [hpn] at hc
        subst hc
        exact ⟨Nat.lt_succ_self n, hpn, fun j hj => first_hit_none p n h j hj⟩
      | false => intro hc; simp [hpn] at hc

/-- If the descending scan finds nothing, the predicate is false below `n`. -/
theorem last_hit_none (p : Nat → Bool) (n : Nat) :
    last_hit p n = none → ∀ i, i < n → p i = false := by
  induction n with
  | zero => intro _ i hi; omega
  | succ n ih =>
    rw [last_hit]
    cases hpn : p n with
    | true => intro hc; simp at hc
    | false =>
      intro h i hi
      rcases Nat.lt_succ_iff_lt_or_eq.mp hi with h' | rfl
      · exact ih h i h'
      · exact hpn

/-- The descending scan returns the greatest index satisfying the
predicate. -/
theorem last_hit_spec (p : Nat → Bool) (n i : Nat) :
    last_hit p n = some i →
      i < n ∧ p i = true ∧ ∀ j, i < j → j < n → p j = false := by
  induction n with
  | zero => intro hc; simp [last_hit] at hc
  | succ n ih =>
    rw [last_hit]
    cases hpn : p n with
    | true =>
      intro hc
      simp at hc
      subst hc
      exact ⟨Nat.lt_succ_self n, hpn, fun j h1 h2 => by omega⟩
    | false =>
      intro h
      obtain ⟨h1, h2, h3⟩ := ih h
      refine ⟨Nat.lt_succ_of_lt h1, h2, fun j hj1 hj2 => ?_⟩
      rcases Nat.lt_succ_iff_lt_or_eq.mp hj2 with h' | rfl
      · exact h3 j hj1 h'
      · exact hpn

/-- If the predicate is false below `n`, the ascending scan finds
nothing. -/
theorem first_hit_none_of (p : Nat → Bool) (n : Nat)
    (h : ∀ i, i < n → p i = false) : first_hit p n = none := by
  induction n with
  | zero => rfl
  | succ n ih =>
    rw [first_hit]
    rw [ih fun i hi => h i (Nat.lt_succ_of_lt hi)]
    simp [h n (Nat.lt_succ_self n)]

/-- Claim C10: the content-bounds scan returns `none` exactly when no
pixel exceeds brightness 64; otherwise it returns a well-formed box
`(left, top, right, bottom)` with `left < right ≤ width` and
`top < bottom ≤ height` containing every pixel brighter than 64. -/
theorem C10_content_bounds_correct :
    ∀ (px : Nat → Nat → Nat) (width height : Nat),
      (calculate_content_bounds px width height = none ↔
        ∀ x, x < width → ∀ y, y < height → px x y ≤ MARGIN_THRESHOLD) ∧
      (∀ left top right bottom,
        calculate_content_bounds px width height = some (left, top, right, bottom) →
          left < right ∧ right ≤ width ∧ top < bottom ∧ bottom ≤ height ∧
          ∀ x, x < width → ∀ y, y < height → MARGIN_THRESHOLD < px x y →
            left ≤ x ∧ x < right ∧ top ≤ y ∧ y < bottom) := by
  intro px w h
  have hrowt : ∀ y x, x < w → MARGIN_THRESHOLD < px x y →
      row_bright px w y = true := by
    intro y x hx hb
    simp only [row_bright, List.any_eq_true, List.mem_range, decide_eq_true_eq]
    exact ⟨x, hx, hb⟩
  have hrowf : ∀ y, row_bright px w y = false →
      ∀ x, x < w → px x y ≤ MARGIN_THRESHOLD := by
    intro y hf x hx
    by_contra hlt
    rw [hrowt y x hx (by omega)] at hf
    cases hf
  have hbandt : ∀ t yb x y, t ≤ y → y ≤ yb → MARGIN_THRESHOLD < px x y →
      band_bright px t (yb + 1) x = true := by
    intro t yb x y h1 h2 hb
    simp only [band_bright, List.any_eq_true, List.mem_range', decide_eq_true_eq]
    exact ⟨y, ⟨y - t, by omega, by omega⟩, hb⟩
  cases htop : first_hit (row_bright px w) h with
  | none =>
    have hall := first_hit_none _ _ htop
    have hmain : calculate_content_bounds px w h = none := by
      unfold calculate_content_bounds
      rw [htop]
    refine ⟨⟨fun _ x hx y hy => hrowf y (hall y hy) x hx, fun _ => hmain⟩,
      fun l t r b hc => by rw [hmain] at hc; cases hc⟩
  | some top =>
    obtain ⟨htoplt, htopT, htopmin⟩ := first_hit_spec _ _ _ htop
    obtain ⟨x0, hx0w, hx0b⟩ : ∃ x, x < w ∧ MARGIN_THRESHOLD < px x top := by
      simpa only [row_bright, List.any_eq_true, List.mem_range,
        decide_eq_true_eq] using htopT
    cases hbot : last_hit (row_bright px w) h with
    | none =>
      exfalso
      rw [last_hit_none _ _ hbot top htoplt] at htopT
      cases htopT
    | some yb =>
      obtain ⟨hyblt, hybT, hybmax⟩ := last_hit_spec _ _ _ hbot
      have htopyb : top ≤ yb := by
        by_contra hlt
        rw [htopmin yb (by omega)] at hybT
        cases hybT
      have hx0band : band_bright px top (yb + 1) x0 = true :=
        hbandt top yb x0 top (Nat.le_refl top) htopyb hx0b
      cases hleft : first_hit (band_bright px top (yb + 1)) w with
      | none =>
        exfalso
        rw [first_hit_none _ _ hleft x0 hx0w] at hx0band
        cases hx0band
      | some left =>
        obtain ⟨hleftlt, hleftT, hleftmin⟩ := first_hit_spec _ _ _ hleft
        cases hright : last_hit (band_bright px top (yb + 1)) w with
        | none =>
          exfalso
          rw [last_hit_none _ _ hright x0 hx0w] at hx0band
          cases hx0band
        | some xr =>
          obtain ⟨hxrlt, hxrT, hxrmax⟩ := last_hit_spec _ _ _ hright
          have hleftxr : left ≤ xr := by
            by_contra hlt
            rw [hleftmin xr (by omega)] at hxrT
            cases hxrT
          have hmain : calculate_content_bounds px w h =
              some (left, top, xr + 1, yb + 1) := by
            unfold calculate_content_bounds
            rw [htop, hbot]
            simp only [hleft, hright]
          constructor
          · constructor
            · intro hc; rw [hmain] at hc; cases hc
            · intro hall
              exact absurd hx0b (by have := hall x0 hx0w top htoplt; omega)
          · intro l t r b hc
            rw [hmain] at hc
            simp only [Option.some.injEq, Prod.mk.injEq] at hc
            obtain ⟨rfl, rfl, rfl, rfl⟩ := hc
            refine ⟨by omega, by omega, by omega, by omega, ?_⟩
            intro x hxw y hyh hb
            have hytop : top ≤ y := by
              by_contra hlt
              have hfalse := htopmin y (by omega)
              rw [hrowt y x hxw hb] at hfalse
              cases hfalse
            have hyyb : y ≤ yb := by
              by_contra hlt
              have hfalse := hybmax y (by omega) hyh
              rw [hrowt y x hxw hb] at hfalse
              cases hfalse
            have hxband : band_bright px top (yb + 1) x = true :=
              hbandt top yb x y hytop hyyb hb
            have hxleft : left ≤ x := by
              by_contra hlt
              rw [hleftmin x (by omega)] at hxband
              cases hxband
            have hxxr : x ≤ xr := by
              by_contra hlt
              rw [hxrmax x (by omega) hxw] at hxband
              cases hxband
            exact ⟨hxleft, by omega, hytop, by omega⟩

/-- Witness for C10 at a concrete 3×3 buffer with a single bright pixel
at (1, 1). -/
theorem C10_content_bounds_witness :
    calculate_content_bounds (fun x y => if x = 1 ∧ y = 1 then 255 else 0) 3 3 =
      some (1, 1, 2, 2) ∧
    (1 < 2 ∧ 2 ≤ 3 ∧ 1 < 2 ∧ 2 ≤ 3 ∧
      ∀ x, x < 3 → ∀ y, y < 3 →
        MARGIN_THRESHOLD < (fun x y => if x = 1 ∧ y = 1 then (255 : Nat) else 0) x y →
          1 ≤ x ∧ x < 2 ∧ 1 ≤ y ∧ y < 2) :=
  ⟨by decide,
    (C10_content_bounds_correct (fun x y => if x = 1 ∧ y = 1 then 255 else 0) 3 3).2
      1 1 2 2 (by decide)⟩

/-- Claim C1: the image-delivery command for screen 1 is exactly
`total_length_u16LE ‖ [0x02,0x00] ‖ payload` with payload
`00 ‖ size_u32LE ‖ crc_u32LE ‖ 00 ‖ 01 ‖ image bytes`, the embedded size
is the image length, the embedded CRC is the zlib CRC-32 of exactly the
image bytes, and `total_length = len(payload) + 4`. -/
theorem C1_image_delivery_frame :
    ∀ png_data : List Nat, (∀ b ∈ png_data, b < 256) →
      png_data.length + 15 < 2 ^ 16 →
      display_text_command png_data =
        some (le_digits 2 (png_data.length + 15) ++ [0x02, 0x00] ++
          (0x00 :: (le_digits 4 png_data.length ++ le_digits 4 (crc32 png_data) ++
            [0x00, 0x01] ++ png_data))) ∧
      from_bytes_le (le_digits 4 png_data.length) = png_data.length ∧
      from_bytes_le (le_digits 4 (crc32 png_data)) = crc32 png_data ∧
      ((0x00 : Nat) :: (le_digits 4 png_data.length ++ le_digits 4 (crc32 png_data) ++
        [0x00, 0x01] ++ png_data)).length + 4 = png_data.length + 15 ∧
      from_bytes_le (le_digits 2 (png_data.length + 15)) = png_data.length + 15 := by
  intro png hb hlen
  have h2 : png.length < 256 ^ 4 := by norm_num at hlen ⊢; omega
  have hc := crc32_lt png hb
  have h3 : crc32 png < 256 ^ 4 := by norm_num at hc ⊢; exact hc
  have h4 : png.length + 15 < 256 ^ 2 := by norm_num at hlen ⊢; omega
  refine ⟨display_text_command_eq png (crc32_mask png hc) h2 h3 h4,
    from_bytes_le_digits 4 _ h2, from_bytes_le_digits 4 _ h3, ?_,
    from_bytes_le_digits 2 _ h4⟩
  simp [le_digits_length]
  omega

/-- Witness for C1: the full frame for the concrete image bytes
`[1, 2, 3]`, evaluated to its literal bytes
(`crc32 [1,2,3] = 0x55BC801D`). -/
theorem C1_image_delivery_witness :
    display_text_command [1, 2, 3] =
      some [18, 0, 2, 0, 0, 3, 0, 0, 0, 29, 128, 188, 85, 0, 1, 1, 2, 3] := by
  have h := (C1_image_delivery_frame [1, 2, 3] (by decide) (by norm_num)).1
  rw [h]
  decide

/-- Claim C2: decoding a device-info response fails with a decode error
for every input shorter than 5 bytes, and on an input of exactly 5 bytes
succeeds with both version fields `"Unknown"`. -/
theorem C2_decode_short_and_five_bytes :
    (∀ r : List Nat, r.length < 5 →
        ∃ e, parse_device_response r = .error e) ∧
    (∀ r : List Nat, r.length = 5 →
        ∃ di, parse_device_response r = .ok di ∧
          di.mcu_version = "Unknown" ∧ di.wifi_version = "Unknown") := by
  constructor
  · intro r h
    exact ⟨"Response too short: got " ++ toString r.length ++
      " bytes, need at least 5", by unfold parse_device_response; rw [if_pos h]⟩
  · intro r h
    unfold parse_device_response
    rw [if_neg (by omega), if_neg (by omega)]
    exact ⟨_, rfl, rfl, rfl⟩

/-- Witness for C2 at a concrete 4-byte input and a concrete 5-byte
input. -/
theorem C2_decode_witness :
    (([0, 0, 0, 0] : List Nat).length < 5 ∧
      ∃ e, parse_device_response [0, 0, 0, 0] = .error e) ∧
    (([0, 0, 0, 0, 128] : List Nat).length = 5 ∧
      ∃ di, parse_device_response [0, 0, 0, 0, 128] = .ok di ∧
        di.mcu_version = "Unknown" ∧ di.wifi_version = "Unknown") :=
  ⟨⟨by decide, C2_decode_short_and_five_bytes.1 [0, 0, 0, 0] (by decide)⟩,
   ⟨by decide, C2_decode_short_and_five_bytes.2 [0, 0, 0, 0, 128] (by decide)⟩⟩

/-- Claim C3: for every response of length at least 5 the resolved
geometry is `led_size_map.get(device_type_map.get(byte4, 0), (64,64))`;
type byte 128 gives (64,64), 132 gives (96,16), and the unmapped byte 200
falls back to (64,64) via logical type 0. -/
theorem C3_geometry_resolution :
    (∀ r : List Nat, 5 ≤ r.length →
        ∃ di, parse_device_response r = .ok di ∧
          di.width =
            ((led_size_map ((device_type_map (r.getD 4 0)).getD 0)).getD (64, 64)).1 ∧
          di.height =
            ((led_size_map ((device_type_map (r.getD 4 0)).getD 0)).getD (64, 64)).2) ∧
    (led_size_map ((device_type_map 128).getD 0)).getD (64, 64) = (64, 64) ∧
    (led_size_map ((device_type_map 132).getD 0)).getD (64, 64) = (96, 16) ∧
    (device_type_map 200 = none ∧
      (led_size_map ((device_type_map 200).getD 0)).getD (64, 64) = (64, 64)) := by
  refine ⟨?_, by decide, by decide, by decide, by decide⟩
  intro r h
  unfold parse_device_response
  rw [if_neg (by omega)]
  by_cases h8 : 8 ≤ r.length
  · rw [if_pos h8]
    exact ⟨_, rfl, rfl, rfl⟩
  · rw [if_neg h8]
    exact ⟨_, rfl, rfl, rfl⟩

/-- Witness for C3 at a concrete 5-byte response with type byte 132. -/
theorem C3_geometry_witness :
    5 ≤ ([0, 0, 0, 0, 132] : List Nat).length ∧
    ∃ di, parse_device_response [0, 0, 0, 0, 132] = .ok di ∧
      di.width =
        ((led_size_map ((device_type_map (([0, 0, 0, 0, 132] : List Nat).getD 4 0)).getD 0)).getD
          (64, 64)).1 ∧
      di.height =
        ((led_size_map ((device_type_map (([0, 0, 0, 0, 132] : List Nat).getD 4 0)).getD 0)).getD
          (64, 64)).2 :=
  ⟨by decide, C3_geometry_resolution.1 [0, 0, 0, 0, 132] (by decide)⟩

/-- Claim C4: with an empty cache, a timed-out query or a response that
fails to parse makes `get_device_info` return, and cache, the
degraded-mode default instead of propagating the failure. -/
theorem C4_degraded_mode_default :
    ∀ (st : SessionState) (q : InfoQueryOutcome), st.device_info = none →
      (q = .timeout ∨
        ∃ d e, q = .response d ∧ parse_device_response d = .error e) →
      get_device_info st q =
        (default_device_info, { st with device_info := some default_device_info }) := by
  intro st q h1 h2
  rcases h2 with rfl | ⟨d, e, rfl, hp⟩
  · simp [get_device_info, h1]
  · simp [get_device_info, h1, hp]

/-- Witness for C4: a fresh session and a timed-out query. -/
theorem C4_degraded_mode_witness :
    (SessionState.mk true none).device_info = none ∧
    get_device_info ⟨true, none⟩ .timeout =
      (default_device_info, ⟨true, some default_device_info⟩) :=
  ⟨rfl, C4_degraded_mode_default ⟨true, none⟩ .timeout rfl (Or.inl rfl)⟩

/-- Counterexample to claim C5: after `disconnect` the session still
holds the previously cached `DeviceInfo` — the cache is not invalidated. -/
theorem C5_cache_not_invalidated :
    disconnect ⟨true, some default_device_info⟩ =
      ⟨false, some default_device_info⟩ ∧
    (disconnect ⟨true, some default_device_info⟩).device_info ≠ none :=
  ⟨rfl, fun h => Option.noConfusion h⟩

/-- Claim C5 as amended: the cached `DeviceInfo` is written once and
returned unchanged by every later `get_device_info` call; `disconnect`
clears only the connected flag and leaves the cached `DeviceInfo` in
place. -/
theorem C5_cache_session_scoped :
    (∀ (st : SessionState) (di : DeviceInfo) (q : InfoQueryOutcome),
        st.device_info = some di → get_device_info st q = (di, st)) ∧
    (∀ st : SessionState, (disconnect st).device_info = st.device_info) ∧
    (∀ st : SessionState, (disconnect st).connected = false) := by
  refine ⟨?_, ?_, ?_⟩
  · intro st di q h
    simp [get_device_info, h]
  · intro st
    by_cases hc : st.connected <;> simp [disconnect, hc]
  · intro st
    by_cases hc : st.connected <;> simp [disconnect, hc]

/-- Witness for the amended C5 at a concrete cached session. -/
theorem C5_cache_witness :
    get_device_info ⟨true, some default_device_info⟩ .timeout =
      (default_device_info, ⟨true, some default_device_info⟩) :=
  C5_cache_session_scoped.1 ⟨true, some default_device_info⟩
    default_device_info .timeout rfl

/-! ### Font search lemmas -/

/-- A successful font search returns a size above the floor, within the
start bound, that fits, and every larger candidate fails. -/
theorem font_search_some (p : Nat → Bool) (n s : Nat) :
    font_search p n = some s →
      MIN_FONT_SIZE < s ∧ s ≤ n ∧ p s = true ∧
      ∀ t, s < t → t ≤ n → p t = false := by
  induction n with
  | zero => intro hc; simp [font_search] at hc
  | succ n ih =>
    rw [font_search]
    by_cases h4 : n + 1 ≤ MIN_FONT_SIZE
    · rw [if_pos h4]
      intro hc
      cases hc
    · rw [if_neg h4]
      cases hp : p (n + 1) with
      | true =>
        intro hc
        simp at hc
        subst hc
        exact ⟨by omega, Nat.le_refl _, hp, fun t h1 h2 => by omega⟩
      | false =>
        intro hc
        simp at hc
        obtain ⟨h1, h2, h3, h5⟩ := ih hc
        refine ⟨h1, Nat.le_succ_of_le h2, h3, fun t ht1 ht2 => ?_⟩
        rcases Nat.lt_succ_iff_lt_or_eq.mp (Nat.lt_succ_of_le ht2) with h' | rfl
        · exact h5 t ht1 (by omega)
        · exact hp

/-- A failed font search means every candidate above the floor and
within the start bound fails. -/
theorem font_search_none (p : Nat → Bool) (n : Nat) :
    font_search p n = none →
      ∀ t, MIN_FONT_SIZE < t → t ≤ n → p t = false := by
  induction n with
  | zero => intro _ t _ _; omega
  | succ n ih =>
    rw [font_search]
    by_cases h4 : n + 1 ≤ MIN_FONT_SIZE
    · rw [if_pos h4]
      intro _ t ht1 ht2
      omega
    · rw [if_neg h4]
      cases hp : p (n + 1) with
      | true => intro hc; cases hc
      | false =>
        intro h t ht1 ht2
        rcases Nat.lt_succ_iff_lt_or_eq.mp (Nat.lt_succ_of_le ht2) with h' | rfl
        · exact ih h t ht1 (by omega)
        · exact hp

/-- Counterexample to claim C6: the candidate range in the code stops at 5,
so a text that fits only at the 4px floor yields the default-font
fallback, while the search claimed in the spec (floor inclusive) selects
size 4. -/
theorem C6_floor_size_never_tried :
    get_optimal_font (fun s => s) narrow_measure 0 ["a"] 6 6 = 0 ∧
    spec_optimal_font (fun s => s) narrow_measure 0 ["a"] 6 6 = 4 ∧
    get_optimal_font (fun s => s) narrow_measure 0 ["a"] 6 6 ≠
      spec_optimal_font (fun s => s) narrow_measure 0 ["a"] 6 6 := by
  refine ⟨?_, ?_, ?_⟩ <;> decide

/-- Claim C6 as amended: the descending search runs from
`min(height, width)` down to 5 — stopping before the 4px floor — and
accepts the first (largest) candidate where the width of every line fits
and the summed line heights fit; when no candidate fits (including when
only the never-tried size 4 would), the built-in default font is used. -/
theorem C6_descending_font_selection :
    ∀ (F : Type) (load : Nat → F) (msr : F → String → Nat × Nat) (dflt : F)
      (lines : List String) (max_width max_height : Nat),
      (∀ s, font_search
            (fun size => measure_fits msr (load size) max_width max_height lines 0)
            (min max_height max_width) = some s →
          MIN_FONT_SIZE < s ∧ s ≤ min max_height max_width ∧
          measure_fits msr (load s) max_width max_height lines 0 = true ∧
          (∀ t, s < t → t ≤ min max_height max_width →
            measure_fits msr (load t) max_width max_height lines 0 = false) ∧
          get_optimal_font load msr dflt lines max_width max_height = load s) ∧
      (font_search
            (fun size => measure_fits msr (load size) max_width max_height lines 0)
            (min max_height max_width) = none →
          (∀ t, MIN_FONT_SIZE < t → t ≤ min max_height max_width →
            measure_fits msr (load t) max_width max_height lines 0 = false) ∧
          get_optimal_font load msr dflt lines max_width max_height = dflt) := by
  intro F load msr dflt lines w h
  constructor
  · intro s hs
    obtain ⟨h1, h2, h3, h4⟩ := font_search_some _ _ _ hs
    exact ⟨h1, h2, h3, h4, by unfold get_optimal_font; rw [hs]⟩
  · intro hn
    exact ⟨font_search_none _ _ hn, by unfold get_optimal_font; rw [hn]⟩

/-- Witness for the amended C6 on the concrete only-4px-fits input: the
search fails and the default font is returned. -/
theorem C6_descending_font_witness :
    font_search
        (fun size => measure_fits narrow_measure ((fun s => s) size) 6 6 ["a"] 0)
        (min 6 6) = none ∧
    ((∀ t, MIN_FONT_SIZE < t → t ≤ min 6 6 →
        measure_fits narrow_measure ((fun s => s) t) 6 6 ["a"] 0 = false) ∧
      get_optimal_font (fun s => s) narrow_measure 0 ["a"] 6 6 = 0) :=
  ⟨by decide,
    (C6_descending_font_selection Nat (fun s => s) narrow_measure 0 ["a"] 6 6).2
      (by decide)⟩

/-- Claim C7: rendering the empty string is total and yields a canvas of
exactly the requested size, with the no-content fallback path taken and
no pixel above the brightness threshold 64, provided drawing the empty
string paints nothing (as PIL `draw.text` does). -/
theorem C7_empty_text_blank_canvas :
    ∀ (F : Type) (msr1 msrL : F → String → Nat × Nat)
      (raster : F → String → Int → Int → Nat) (load : Nat → F) (dflt : F)
      (width height : Nat) (antialias : Bool) (font_size : Option Nat),
      (∀ (f : F) (dx dy : Int), raster f "" dx dy = 0) →
      (render_text_to_png msr1 msrL raster load dflt "" width height antialias
          font_size).width = width ∧
      (render_text_to_png msr1 msrL raster load dflt "" width height antialias
          font_size).height = height ∧
      (render_text_to_png msr1 msrL raster load dflt "" width height antialias
          font_size).content_bounds = none ∧
      ∀ x y, (render_text_to_png msr1 msrL raster load dflt "" width height antialias
          font_size).pixels x y ≤ MARGIN_THRESHOLD := by
  intro F msr1 msrL raster load dflt w h anti fs hres
  have htpx : ∀ (font : F) (x y : Nat),
      temp_pixels raster font (line_layout msrL font [""] 0) x y = 0 := by
    intro font x y
    simp [temp_pixels, line_layout, hres]
  have hbounds : ∀ font : F,
      calculate_content_bounds
        (temp_pixels raster font (line_layout msrL font [""] 0)) w h = none := by
    intro font
    unfold calculate_content_bounds
    rw [first_hit_none_of _ _ fun y _ => by simp [row_bright, htpx, MARGIN_THRESHOLD]]
  have hfin : ∀ (font : F) (anti : Bool) (a b : Int) (x y : Nat),
      final_pixels raster font anti [("", (a, b))] x y = 0 := by
    intro font anti a b x y
    simp [final_pixels, hres]
  have hsplit : split_lines "" = [""] := rfl
  refine ⟨rfl, rfl, ?_, ?_⟩
  · simp only [render_text_to_png, hsplit]
    exact hbounds _
  · intro x y
    simp only [render_text_to_png, hsplit, line_layout, draw_positions,
      List.zip, List.zipWith, List.map]
    rw [hfin]
    exact Nat.zero_le _

/-- Witness for C7: a concrete raster that paints nothing anywhere, on a
64×16 canvas; the pixel at (3, 5) is below the threshold. -/
theorem C7_empty_text_witness :
    (∀ (f : Unit) (dx dy : Int), (fun (_ : Unit) (_ : String) (_ _ : Int) => 0) f "" dx dy = 0) ∧
    (render_text_to_png (fun _ _ => (0, 0)) (fun _ _ => (0, 0)) (fun _ _ _ _ => 0)
        (fun _ => ()) () "" 64 16 true none).content_bounds = none ∧
    (render_text_to_png (fun _ _ => (0, 0)) (fun _ _ => (0, 0)) (fun _ _ _ _ => 0)
        (fun _ => ()) () "" 64 16 true none).pixels 3 5 ≤ MARGIN_THRESHOLD :=
  ⟨fun _ _ _ => rfl,
    (C7_empty_text_blank_canvas Unit (fun _ _ => (0, 0)) (fun _ _ => (0, 0))
      (fun _ _ _ _ => 0) (fun _ => ()) () 64 16 true none (fun _ _ _ => rfl)).2.2.1,
    (C7_empty_text_blank_canvas Unit (fun _ _ => (0, 0)) (fun _ _ => (0, 0))
      (fun _ _ _ _ => 0) (fun _ => ()) () 64 16 true none (fun _ _ _ => rfl)).2.2.2 3 5⟩

/-- Counterexample to claim C8: with auto-sizing, the font search
measures through the draw of the output image, whose fontmode depends on
the antialias flag (`"1"` when off, `"L"` when on).  Under the concrete
mode-dependent metrics, antialiasing on selects size 6 and places the
line at x = 1, antialiasing off selects size 5 and places it at x = 2 —
the glyph positions differ. -/
theorem C8_positions_depend_on_antialias :
    (render_text_to_png mode1_measure modeL_measure (fun _ _ _ _ => 0)
        (fun s => s) 0 "a" 9 6 true none).positions = [((1 : Int), (0 : Int))] ∧
    (render_text_to_png mode1_measure modeL_measure (fun _ _ _ _ => 0)
        (fun s => s) 0 "a" 9 6 false none).positions = [((2 : Int), (0 : Int))] ∧
    (render_text_to_png mode1_measure modeL_measure (fun _ _ _ _ => 0)
        (fun s => s) 0 "a" 9 6 true none).positions ≠
      (render_text_to_png mode1_measure modeL_measure (fun _ _ _ _ => 0)
        (fun s => s) 0 "a" 9 6 false none).positions := by
  refine ⟨?_, ?_, ?_⟩ <;> decide

/-- Claim C8 as amended: the antialias flag reaches the geometry through
exactly one channel — the auto-size font search measures with the draw of
the mode-dependent output image.  With a fixed `font_size` the per-line
draw positions and the content bounds are identical for both flag values,
and they are likewise identical whenever the mode-`"1"` and mode-`"L"`
measurements agree; apart from font selection the flag only switches the
color-depth draw path. -/
theorem C8_antialias_geometry_channel :
    ∀ (F : Type) (msr1 msrL : F → String → Nat × Nat)
      (raster : F → String → Int → Int → Nat) (load : Nat → F) (dflt : F)
      (text : String) (width height : Nat),
      (∀ s : Nat,
        (render_text_to_png msr1 msrL raster load dflt text width height true
            (some s)).positions =
          (render_text_to_png msr1 msrL raster load dflt text width height false
            (some s)).positions ∧
        (render_text_to_png msr1 msrL raster load dflt text width height true
            (some s)).content_bounds =
          (render_text_to_png msr1 msrL raster load dflt text width height false
            (some s)).content_bounds) ∧
      (msr1 = msrL →
        ∀ font_size : Option Nat,
          (render_text_to_png msr1 msrL raster load dflt text width height true
              font_size).positions =
            (render_text_to_png msr1 msrL raster load dflt text width height false
              font_size).positions ∧
          (render_text_to_png msr1 msrL raster load dflt text width height true
              font_size).content_bounds =
            (render_text_to_png msr1 msrL raster load dflt text width height false
              font_size).content_bounds) := by
  intro F msr1 msrL raster load dflt text w h
  constructor
  · intro s
    exact ⟨rfl, rfl⟩
  · intro hmsr fs
    subst hmsr
    exact ⟨rfl, rfl⟩

/-- Witness for the amended C8: agreeing mode metrics on the
counterexample input give identical positions and bounds even with
auto-sizing. -/
theorem C8_antialias_geometry_witness :
    (render_text_to_png modeL_measure modeL_measure (fun _ _ _ _ => 0)
        (fun s => s) 0 "a" 9 6 true none).positions =
      (render_text_to_png modeL_measure modeL_measure (fun _ _ _ _ => 0)
        (fun s => s) 0 "a" 9 6 false none).positions ∧
    (render_text_to_png modeL_measure modeL_measure (fun _ _ _ _ => 0)
        (fun s => s) 0 "a" 9 6 true none).content_bounds =
      (render_text_to_png modeL_measure modeL_measure (fun _ _ _ _ => 0)
        (fun s => s) 0 "a" 9 6 false none).content_bounds :=
  (C8_antialias_geometry_channel Nat modeL_measure modeL_measure
    (fun _ _ _ _ => 0) (fun s => s) 0 "a" 9 6).2 rfl none

/-- Claim C9: the rhythm-mode and fun-mode handlers always return the
failure result `false`, never success and never an exception. -/
theorem C9_stub_modes_return_failure :
    ∀ (H A : Type) (hass : H) (device_name : String) (api : A),
      update_rhythm_mode hass device_name api = false ∧
      update_fun_mode hass device_name api = false :=
  fun _ _ _ _ _ => ⟨rfl, rfl⟩

end IPixel
